import Mathlib

/-!
Shallow embedding of the command-dispatch and workflow engine of the
agent-prd bot (src/main.go). External collaborators (the issue tracker,
the AI generation backend, the filesystem and subprocesses) are modelled
as environments holding the results each external call would return; each
handler becomes a pure function from its environment to the trace of
user-visible effects it performs (generator calls, posted comments,
workspace lifecycle events, stage attempts).
-/

deriving instance DecidableEq for Except

namespace AgentPRD

/-! ### Go string primitives, modelled on character lists.

The Go code uses strings.TrimSpace, strings.Fields, strings.Split,
strings.HasPrefix, strings.TrimPrefix and strings.Contains. We model the
whitespace class on its ASCII members (space, tab, newline, carriage
return, vertical tab, form feed), which is what unicode.IsSpace gives on
ASCII input. -/

def goIsSpace (c : Char) : Bool :=
  c = ' ' || c = '\t' || c = '\n' || c = '\r' || c = '\x0b' || c = '\x0c'

def trimChars (l : List Char) : List Char :=
  ((l.dropWhile goIsSpace).reverse.dropWhile goIsSpace).reverse

/-- strings.TrimSpace -/
def goTrim (s : String) : String := String.mk (trimChars s.data)

def splitChar (c : Char) : List Char → List (List Char)
  | [] => [[]]
  | x :: xs =>
    match splitChar c xs with
    | [] => [[]]
    | h :: t => if x = c then [] :: h :: t else (x :: h) :: t

/-- strings.Split with a one-character separator -/
def goSplit (s : String) (c : Char) : List String :=
  (splitChar c s.data).map String.mk

def splitByPred (p : Char → Bool) : List Char → List (List Char)
  | [] => [[]]
  | x :: xs =>
    match splitByPred p xs with
    | [] => [[]]
    | h :: t => if p x then [] :: h :: t else (x :: h) :: t

/-- strings.Fields: split around runs of whitespace, dropping empty words -/
def goFields (s : String) : List String :=
  ((splitByPred goIsSpace s.data).filter (fun w => !w.isEmpty)).map String.mk

def isPre : List Char → List Char → Bool
  | [], _ => true
  | _ :: _, [] => false
  | a :: as, b :: bs => a = b && isPre as bs

/-- strings.HasPrefix s pre -/
def goStartsWith (s pre : String) : Bool := isPre pre.data s.data

def containsSeq (needle : List Char) : List Char → Bool
  | [] => needle.isEmpty
  | x :: xs => isPre needle (x :: xs) || containsSeq needle xs

/-- strings.Contains s sub -/
def goContains (s sub : String) : Bool := containsSeq sub.data s.data

/-- String.drop by character count (used to model strings.TrimPrefix after
a successful HasPrefix check) -/
def goDrop (s : String) (n : Nat) : String := String.mk (s.data.drop n)

/-! ### Constants (src/main.go, const block) -/

def CommandGeneratePRD : String := "need_prd"

def PRDIdentifier : String := "### PRD (Product Requirements Document)"

/-! ### CommandRouter: parseComment -/

/-- Bot.parseComment: trim the body, split into whitespace-delimited
fields; the first field must equal the mention string exactly and a second
field must exist, which is returned as the command. -/
def parseComment (appName : String) (body : String) : Option String :=
  let botMention := "@" ++ appName
  let trimmedBody := goTrim body
  let fields := goFields trimmedBody
  match fields with
  | f0 :: f1 :: _ => if f0 = botMention then some f1 else none
  | _ => none

/-! ### FeatureRequest parsing: parseFilePathsFromIssue -/

/-- Parsing of the first line found to start (after trimming) with
"Files:": strip the tag, trim, and if nonempty split on commas with each
entry trimmed. -/
def parseFilesFromLine (line : String) : List String :=
  let filesPart := goTrim (goDrop line 6)
  if filesPart = "" then [] else (goSplit filesPart ',').map goTrim

def findFilesLine : List String → List String
  | [] => []
  | l :: rest =>
    let line := goTrim l
    if goStartsWith line "Files:" then parseFilesFromLine line
    else findFilesLine rest

/-- parseFilePathsFromIssue: scan the body line by line; the first line
whose trimmed form starts with "Files:" determines the file list (possibly
empty when nothing follows the tag); no such line gives the empty list. -/
def parseFilePathsFromIssue (body : String) : List String :=
  findFilesLine (goSplit body '\n')

/-! ### Comments and findPRDComment -/

structure Comment where
  id : Nat
  body : String
deriving DecidableEq

/-- The loop body of findPRDComment: iterate the comment list from the
last index down to the first and return the first comment whose body
contains the PRD marker. Iterating indices from high to low is scanning
the reversed list front to back. -/
def findPRDIn (comments : List Comment) : Option Comment :=
  comments.reverse.find? (fun c => goContains c.body PRDIdentifier)

/-- findPRDComment: a failed ListComments call is surfaced as an error;
otherwise the newest-first marker scan, with none meaning no PRD found. -/
def findPRDComment (listResult : Except String (List Comment)) :
    Except String (Option Comment) :=
  match listResult with
  | .error e => .error ("error fetching comments: " ++ e)
  | .ok comments => .ok (findPRDIn comments)

/-! ### generatePRD (PRDPipeline generation stages)

The three GenerateContent calls (English draft, language detection,
translation) are modelled by the results the backend would return for
each. -/

structure GenEnv where
  englishResult : Except String String
  langResult : Except String String
  translateResult : Except String String
deriving DecidableEq

def fallbackLanguage : String := "the original language of the issue"

/-- generatePRD: a failed English draft is fatal; a failed language
detection silently falls back to a fixed phrase; a failed translation
degrades to a marker + English artifact while still returning success; on
full success the artifact interleaves marker, English section, and a
header naming the trimmed detected language, separated by blank-framed
horizontal rules. -/
def generatePRD (env : GenEnv) : Except String String :=
  match env.englishResult with
  | .error e => .error ("failed to generate English PRD: " ++ e)
  | .ok englishPRD =>
    let detectedLanguage :=
      match env.langResult with
      | .error _ => fallbackLanguage
      | .ok lang => lang
    match env.translateResult with
    | .error _ => .ok (PRDIdentifier ++ "\n\n---\n\n" ++ englishPRD)
    | .ok translatedPRD =>
      .ok (PRDIdentifier ++ "\n\n---\n\n" ++ englishPRD ++ "\n\n---\n\n### PRD ("
            ++ goTrim detectedLanguage ++ ")\n\n" ++ translatedPRD)

/-- Number of GenerateContent calls generatePRD performs: one when the
English draft fails (the run stops there); otherwise three (draft,
language detection, translation — both always attempted once the draft
succeeded). -/
def generatePRDGenCalls (env : GenEnv) : Nat :=
  match env.englishResult with
  | .error _ => 1
  | .ok _ => 3

/-- Modelled from the spec (section 4.2 final-artifact sentence), for
comparison with generatePRD: the layout the specification text lists —
marker line, blank, English section, horizontal rule, blank, a header
naming the detected language, blank, translated section — with each listed
item on its own line and a blank being an empty line. -/
def specArtifactLayout (english lang translated : String) : String :=
  PRDIdentifier ++ "\n\n" ++ english ++ "\n---\n\n### PRD (" ++ lang ++ ")\n\n"
    ++ translated

/-! ### Effect traces of the comment-driven handlers -/

structure ProcTrace where
  genCalls : Nat
  posts : List String
deriving DecidableEq

/-- The readme handle returned by Repositories.GetContents, whose
GetContent decode step may itself fail. -/
structure ReadmeHandle where
  decodeResult : Except String String
deriving DecidableEq

structure PRDProcEnv where
  listResult : Except String (List Comment)
  contentsResult : Except String ReadmeHandle
  genEnv : GenEnv
deriving DecidableEq

/-- processIssuePRD: the idempotency check keeps only the comment half of
the findPRDComment pair (the error is discarded with a blank identifier),
skipping silently when a PRD comment exists; then the readme is fetched
and decoded, the PRD generated, and the artifact posted; every failure
after the skip check returns silently with no post. -/
def processIssuePRD (env : PRDProcEnv) : ProcTrace :=
  let prd : Option Comment :=
    match findPRDComment env.listResult with
    | .error _ => none
    | .ok o => o
  if prd.isSome then { genCalls := 0, posts := [] }
  else
    match env.contentsResult with
    | .error _ => { genCalls := 0, posts := [] }
    | .ok readme =>
      match readme.decodeResult with
      | .error _ => { genCalls := 0, posts := [] }
      | .ok _ =>
        match generatePRD env.genEnv with
        | .error _ => { genCalls := generatePRDGenCalls env.genEnv, posts := [] }
        | .ok prdContent =>
          { genCalls := generatePRDGenCalls env.genEnv, posts := [prdContent] }

def noPrdMessage (appName : String) : String :=
  "I couldn\x27t find a PRD to generate sub-tasks from. Please run `@" ++ appName
    ++ " " ++ CommandGeneratePRD ++ "` first."

/-- generateSubTasks, abstracted over the GenerateContent result: on
success the raw model output is wrapped under the fixed sub-tasks
header. -/
def generateSubTasks (genResult : Except String String) : Except String String :=
  match genResult with
  | .error e => .error ("failed to generate sub-tasks: " ++ e)
  | .ok text =>
    .ok ("### Generated Sub-tasks\n\nBased on the PRD, here are the suggested sub-tasks:\n\n"
          ++ text)

structure SubEnv where
  listResult : Except String (List Comment)
  genResult : Except String String
deriving DecidableEq

/-- processIssueSubTasks: when findPRDComment errors or finds no PRD, the
fixed "run need_prd first" message is posted and nothing else happens;
otherwise sub-tasks are generated from the PRD comment (one generator
call) and posted on success, with a silent return on generation failure. -/
def processIssueSubTasks (appName : String) (env : SubEnv) : ProcTrace :=
  match findPRDComment env.listResult with
  | .error _ => { genCalls := 0, posts := [noPrdMessage appName] }
  | .ok none => { genCalls := 0, posts := [noPrdMessage appName] }
  | .ok (some _) =>
    match generateSubTasks env.genResult with
    | .error _ => { genCalls := 1, posts := [] }
    | .ok subTasks => { genCalls := 1, posts := [subTasks] }

/-! ### FeatureWorkflow: processImplementFeature

Every external call of the workflow (MkdirTemp, the installation token,
each git subprocess, the patch agent subprocess, the PullRequests.Create
call) is modelled by the result it would return. The handler is embedded
as the ordered trace of its observable events: stage attempts, posted
comments, and workspace creation/removal (the deferred RemoveAll runs on
every exit path reached after a successful MkdirTemp). -/

inductive Stage where
  | parsed
  | acknowledged
  | workspaceReady
  | cloned
  | branched
  | patched
  | committed
  | pushed
  | pullRequestOpened
deriving DecidableEq

structure FeatEnv where
  issueBody : String
  mkdirResult : Except String Unit
  tokenResult : Except String Unit
  cloneResult : Except String Unit
  branchResult : Except String Unit
  geminiResult : Except String Unit
  cfgNameResult : Except String Unit
  cfgEmailResult : Except String Unit
  addResult : Except String Unit
  commitResult : Except String Unit
  pushResult : Except String Unit
  prResult : Except String String
deriving DecidableEq

inductive Ev where
  | stageAttempt (s : Stage)
  | post (body : String)
  | wsCreate
  | wsRemove
deriving DecidableEq

/-- The fail helper: its single diagnostic comment for a stage failure. -/
def failMsg (issueNum : Nat) (reason : String) : String :=
  "I failed to implement the feature for issue #" ++ toString issueNum
    ++ ". **Reason:** " ++ reason ++ "."

def ackMsg (issueNum : Nat) : String :=
  "Alright, I\x27m on it! I will try to implement the feature for issue #"
    ++ toString issueNum ++ ". Give me a few minutes..."

def finalMsg (issueNum : Nat) (url : String) : String :=
  "I\x27ve created a Pull Request for issue #" ++ toString issueNum
    ++ ". You can review it here: " ++ url

def noFilesReason : String :=
  "No files to modify. Please specify the files in the issue body using the format `Files: file1.go, path/to/file2.go`"

/-- The part of the workflow performed inside the workspace, from the
Cloned stage (token fetch + git clone) onward; the deferred workspace
removal is appended by the caller. -/
def cloneOnward (issueNum : Nat) (env : FeatEnv) : List Ev :=
  Ev.stageAttempt .cloned ::
  match env.tokenResult with
  | .error _ => [Ev.post (failMsg issueNum "Could not get installation token")]
  | .ok _ =>
    match env.cloneResult with
    | .error _ => [Ev.post (failMsg issueNum "Could not clone repository")]
    | .ok _ =>
      Ev.stageAttempt .branched ::
      match env.branchResult with
      | .error _ => [Ev.post (failMsg issueNum "Could not create new branch")]
      | .ok _ =>
        Ev.stageAttempt .patched ::
        match env.geminiResult with
        | .error _ => [Ev.post (failMsg issueNum "Gemini CLI failed to modify the files")]
        | .ok _ =>
          Ev.stageAttempt .committed ::
          match env.cfgNameResult with
          | .error _ => [Ev.post (failMsg issueNum "Could not set git user name")]
          | .ok _ =>
            match env.cfgEmailResult with
            | .error _ => [Ev.post (failMsg issueNum "Could not set git user email")]
            | .ok _ =>
              match env.addResult with
              | .error _ => [Ev.post (failMsg issueNum "Could not add files to git")]
              | .ok _ =>
                match env.commitResult with
                | .error _ => [Ev.post (failMsg issueNum "Could not commit changes")]
                | .ok _ =>
                  Ev.stageAttempt .pushed ::
                  match env.pushResult with
                  | .error _ => [Ev.post (failMsg issueNum "Could not push changes to remote")]
                  | .ok _ =>
                    Ev.stageAttempt .pullRequestOpened ::
                    match env.prResult with
                    | .error _ => [Ev.post (failMsg issueNum "Could not create Pull Request")]
                    | .ok url => [Ev.post (finalMsg issueNum url)]

/-- processImplementFeature as its event trace: parse the file list (an
empty list fails immediately, before any workspace exists), post the
acknowledgement, create the workspace (whose removal is deferred to every
later exit path), then run the in-workspace stages. -/
def processImplementFeature (issueNum : Nat) (env : FeatEnv) : List Ev :=
  Ev.stageAttempt .parsed ::
  (if (parseFilePathsFromIssue env.issueBody).length = 0 then
    [Ev.post (failMsg issueNum noFilesReason)]
  else
    Ev.stageAttempt .acknowledged :: Ev.post (ackMsg issueNum) ::
    Ev.stageAttempt .workspaceReady ::
    match env.mkdirResult with
    | .error _ => [Ev.post (failMsg issueNum "Could not create temporary directory")]
    | .ok _ => Ev.wsCreate :: (cloneOnward issueNum env ++ [Ev.wsRemove]))

/-- The stage attempts of a trace, in order. -/
def stagesOf (trace : List Ev) : List Stage :=
  trace.filterMap fun e =>
    match e with
    | Ev.stageAttempt s => some s
    | _ => none

def fullStageOrder : List Stage :=
  [.parsed, .acknowledged, .workspaceReady, .cloned, .branched, .patched,
   .committed, .pushed, .pullRequestOpened]

def isOkE {α : Type} : Except String α → Bool
  | .ok _ => true
  | .error _ => false

/-- Whether each stage of the workflow succeeds in a given environment
(the Acknowledged stage always succeeds: posting errors are swallowed by
postComment). -/
def stageSucceeds (env : FeatEnv) : Stage → Bool
  | .parsed => decide ((parseFilePathsFromIssue env.issueBody).length ≠ 0)
  | .acknowledged => true
  | .workspaceReady => isOkE env.mkdirResult
  | .cloned => isOkE env.tokenResult && isOkE env.cloneResult
  | .branched => isOkE env.branchResult
  | .patched => isOkE env.geminiResult
  | .committed => isOkE env.cfgNameResult && isOkE env.cfgEmailResult
      && isOkE env.addResult && isOkE env.commitResult
  | .pushed => isOkE env.pushResult
  | .pullRequestOpened => isOkE env.prResult

/-! ## Theorems -/

/-- Claim C1: FeatureWorkflow failure containment. If the Patched stage
(the external code-modification agent invocation) fails while every
earlier stage succeeded, the whole run is exactly: the Parsed,
Acknowledged (with its acknowledgement post), WorkspaceReady (with the
workspace creation), Cloned, Branched and Patched attempts, then exactly
one failure comment naming the failed patch step, then the workspace
removal. In particular no Committed, Pushed or PullRequestOpened stage is
attempted, the workspace is removed, and the failure comment is the only
comment posted after the acknowledgement. -/
theorem featurePatchFailure_containment (issueNum : Nat) (env : FeatEnv) (e : String)
    (hfiles : parseFilePathsFromIssue env.issueBody ≠ [])
    (hmk : env.mkdirResult = .ok ()) (htok : env.tokenResult = .ok ())
    (hcl : env.cloneResult = .ok ()) (hbr : env.branchResult = .ok ())
    (hgm : env.geminiResult = .error e) :
    processImplementFeature issueNum env =
      [Ev.stageAttempt Stage.parsed, Ev.stageAttempt Stage.acknowledged,
       Ev.post (ackMsg issueNum), Ev.stageAttempt Stage.workspaceReady, Ev.wsCreate,
       Ev.stageAttempt Stage.cloned, Ev.stageAttempt Stage.branched,
       Ev.stageAttempt Stage.patched,
       Ev.post (failMsg issueNum "Gemini CLI failed to modify the files"),
       Ev.wsRemove] := by
  simp [processImplementFeature, cloneOnward, hmk, htok, hcl, hbr, hgm,
    List.length_eq_zero, hfiles]

/-- Witness for C1: a concrete run with a two-file request whose patch
agent exits with status 1. -/
theorem featurePatchFailure_containment_witness :
    processImplementFeature 5
        ⟨"Files: a.go, b.go", Except.ok (), Except.ok (), Except.ok (), Except.ok (),
         Except.error "exit status 1", Except.ok (), Except.ok (), Except.ok (),
         Except.ok (), Except.ok (), Except.ok "https://example.com/pr/1"⟩ =
      [Ev.stageAttempt Stage.parsed, Ev.stageAttempt Stage.acknowledged,
       Ev.post (ackMsg 5), Ev.stageAttempt Stage.workspaceReady, Ev.wsCreate,
       Ev.stageAttempt Stage.cloned, Ev.stageAttempt Stage.branched,
       Ev.stageAttempt Stage.patched,
       Ev.post (failMsg 5 "Gemini CLI failed to modify the files"),
       Ev.wsRemove] :=
  featurePatchFailure_containment 5 _ "exit status 1" (by decide) rfl rfl rfl rfl rfl

/-- Claim C2: PRD idempotency. When the comment listing succeeds and some
existing comment body contains the PRD marker, processIssuePRD performs
zero content-generator calls and posts nothing. -/
theorem prdPipeline_idempotent (env : PRDProcEnv) (comments : List Comment) (c : Comment)
    (hl : env.listResult = .ok comments) (hc : c ∈ comments)
    (hm : goContains c.body PRDIdentifier = true) :
    processIssuePRD env = { genCalls := 0, posts := [] } := by
  have hsome : (findPRDIn comments).isSome = true :=
    List.find?_isSome.mpr ⟨c, List.mem_reverse.mpr hc, hm⟩
  unfold processIssuePRD
  rw [hl]
  simp [findPRDComment, hsome]

/-- Witness for C2: one existing comment carrying the marker suppresses
generation and posting. -/
theorem prdPipeline_idempotent_witness :
    processIssuePRD
        ⟨Except.ok [⟨1, "intro\n### PRD (Product Requirements Document)\nrest"⟩],
         Except.ok ⟨Except.ok "readme text"⟩,
         ⟨Except.ok "E", Except.ok "L", Except.ok "T"⟩⟩ =
      { genCalls := 0, posts := [] } :=
  prdPipeline_idempotent _ _ ⟨1, "intro\n### PRD (Product Requirements Document)\nrest"⟩
    rfl (by decide) (by decide)

/-- Claim C3: FeatureWorkflow stage ordering. In every run, the sequence
of attempted stages is a prefix of the canonical order Parsed,
Acknowledged, WorkspaceReady, Cloned, Branched, Patched, Committed,
Pushed, PullRequestOpened, cut exactly one past the initial run of
succeeding stages: stages are attempted in strict forward order, each at
most once, and a stage is attempted precisely when every earlier stage
succeeded. -/
theorem featureWorkflow_stage_order (issueNum : Nat) (env : FeatEnv) :
    stagesOf (processImplementFeature issueNum env) =
      fullStageOrder.take
        (min 9 ((fullStageOrder.takeWhile (stageSucceeds env)).length + 1)) := by
  rcases env with ⟨body, mk, tok, cl, br, gm, cn, ce, ad, cm, ps, pr⟩
  by_cases h : (parseFilePathsFromIssue body).length = 0
  · simp [processImplementFeature, cloneOnward, stagesOf, fullStageOrder,
      stageSucceeds, isOkE, h]
  · cases mk with
    | error e => simp [processImplementFeature, cloneOnward, stagesOf, fullStageOrder,
        stageSucceeds, isOkE, h]
    | ok u =>
      cases tok with
      | error e => simp [processImplementFeature, cloneOnward, stagesOf, fullStageOrder,
          stageSucceeds, isOkE, h]
      | ok u =>
        cases cl with
        | error e => simp [processImplementFeature, cloneOnward, stagesOf, fullStageOrder,
            stageSucceeds, isOkE, h]
        | ok u =>
          cases br with
          | error e => simp [processImplementFeature, cloneOnward, stagesOf, fullStageOrder,
              stageSucceeds, isOkE, h]
          | ok u =>
            cases gm with
            | error e => simp [processImplementFeature, cloneOnward, stagesOf, fullStageOrder,
                stageSucceeds, isOkE, h]
            | ok u =>
              cases cn with
              | error e => simp [processImplementFeature, cloneOnward, stagesOf, fullStageOrder,
                  stageSucceeds, isOkE, h]
              | ok u =>
                cases ce with
                | error e => simp [processImplementFeature, cloneOnward, stagesOf,
                    fullStageOrder, stageSucceeds, isOkE, h]
                | ok u =>
                  cases ad with
                  | error e => simp [processImplementFeature, cloneOnward, stagesOf,
                      fullStageOrder, stageSucceeds, isOkE, h]
                  | ok u =>
                    cases cm with
                    | error e => simp [processImplementFeature, cloneOnward, stagesOf,
                        fullStageOrder, stageSucceeds, isOkE, h]
                    | ok u =>
                      cases ps with
                      | error e => simp [processImplementFeature, cloneOnward, stagesOf,
                          fullStageOrder, stageSucceeds, isOkE, h]
                      | ok u =>
                        cases pr with
                        | error e => simp [processImplementFeature, cloneOnward, stagesOf,
                            fullStageOrder, stageSucceeds, isOkE, h]
                        | ok url => simp [processImplementFeature, cloneOnward, stagesOf,
                            fullStageOrder, stageSucceeds, isOkE, h]

/-- Claim C4, counterexample: on the fully successful run with English
section "E", detected language "French" and translated section "T", the
artifact generatePRD returns is not the layout the claim lists (marker
line, blank, English section, horizontal rule, blank, language header,
blank, translated section): the code inserts a blank-framed horizontal
rule between the marker line and the English section, which the claimed
layout omits. -/
theorem prdArtifact_layout_counterexample :
    generatePRD ⟨Except.ok "E", Except.ok "French", Except.ok "T"⟩ =
        Except.ok "### PRD (Product Requirements Document)\n\n---\n\nE\n\n---\n\n### PRD (French)\n\nT"
      ∧ ("### PRD (Product Requirements Document)\n\n---\n\nE\n\n---\n\n### PRD (French)\n\nT" : String)
          ≠ specArtifactLayout "E" "French" "T" :=
  ⟨by decide, by decide⟩

/-- Claim C4, amended: on every successful run of generatePRD in which
translation succeeds, the returned artifact is exactly the marker line, a
blank, a horizontal rule, a blank, the English section, a blank, a
horizontal rule, a blank, a header naming the whitespace-trimmed detected
language, a blank, and the translated section. -/
theorem prdArtifact_layout_actual (env : GenEnv) (english lang translated : String)
    (h1 : env.englishResult = .ok english) (h2 : env.langResult = .ok lang)
    (h3 : env.translateResult = .ok translated) :
    generatePRD env =
      .ok (PRDIdentifier ++ "\n\n---\n\n" ++ english ++ "\n\n---\n\n### PRD ("
            ++ goTrim lang ++ ")\n\n" ++ translated) := by
  rcases env with ⟨er, lr, tr⟩
  dsimp only at h1 h2 h3
  subst h1 h2 h3
  rfl

/-- Witness for the amended C4 at a concrete fully successful run. -/
theorem prdArtifact_layout_actual_witness :
    generatePRD ⟨Except.ok "E", Except.ok "French", Except.ok "T"⟩ =
      Except.ok (PRDIdentifier ++ "\n\n---\n\n" ++ "E" ++ "\n\n---\n\n### PRD ("
            ++ goTrim "French" ++ ")\n\n" ++ "T") :=
  prdArtifact_layout_actual _ "E" "French" "T" rfl rfl rfl

/-- Claim C5: translation-failure degradation. When the English draft
succeeds and the translation call fails, generatePRD still returns
success, and the artifact is exactly the marker, a blank-framed rule, and
the English section — no language header and no translated section. -/
theorem prdTranslation_failure_degrades (env : GenEnv) (english e : String)
    (h1 : env.englishResult = .ok english)
    (h2 : env.translateResult = .error e) :
    generatePRD env = .ok (PRDIdentifier ++ "\n\n---\n\n" ++ english) := by
  rcases env with ⟨er, lr, tr⟩
  dsimp only at h1 h2
  subst h1 h2
  cases lr <;> rfl

/-- Witness for C5: concrete run whose translation backend call fails. -/
theorem prdTranslation_failure_degrades_witness :
    generatePRD ⟨Except.ok "English PRD", Except.ok "French", Except.error "backend down"⟩ =
      Except.ok (PRDIdentifier ++ "\n\n---\n\n" ++ "English PRD") :=
  prdTranslation_failure_degrades _ "English PRD" "backend down" rfl rfl

/-- Claim C6: FeatureWorkflow validation failure. Whenever
parseFilePathsFromIssue extracts an empty file list from the issue body,
the run is exactly the Parsed attempt followed by one diagnostic comment:
no workspace is created (no wsCreate event) and no later stage is
attempted. -/
theorem featureWorkflow_noFiles_terminates (issueNum : Nat) (env : FeatEnv)
    (h : parseFilePathsFromIssue env.issueBody = []) :
    processImplementFeature issueNum env =
      [Ev.stageAttempt Stage.parsed, Ev.post (failMsg issueNum noFilesReason)] := by
  simp [processImplementFeature, h]

/-- Witness for C6: a body with no Files line parses to the empty list
and terminates the workflow at Parsed with a single diagnostic post. -/
theorem featureWorkflow_noFiles_terminates_witness :
    processImplementFeature 7
        ⟨"Please add dark mode. No file list here.", Except.ok (), Except.ok (),
         Except.ok (), Except.ok (), Except.ok (), Except.ok (), Except.ok (),
         Except.ok (), Except.ok (), Except.ok (), Except.ok "url"⟩ =
      [Ev.stageAttempt Stage.parsed, Ev.post (failMsg 7 noFilesReason)] :=
  featureWorkflow_noFiles_terminates 7 _ (by decide)

/-- Claim C7: SubtaskPipeline with no PRD. When the comment listing
succeeds and no comment body contains the PRD marker, processIssueSubTasks
posts exactly the fixed run-need_prd-first message and performs zero
content-generator calls. -/
theorem subtask_noPRD_message (appName : String) (env : SubEnv) (comments : List Comment)
    (hl : env.listResult = .ok comments)
    (hno : ∀ c ∈ comments, goContains c.body PRDIdentifier = false) :
    processIssueSubTasks appName env =
      { genCalls := 0, posts := [noPrdMessage appName] } := by
  have hnone : findPRDIn comments = none :=
    List.find?_eq_none.mpr fun c hc => by
      simp [hno c (List.mem_reverse.mp hc)]
  unfold processIssueSubTasks
  rw [hl]
  simp [findPRDComment, hnone]

/-- Witness for C7: two marker-free comments yield the fixed message and
no generation. -/
theorem subtask_noPRD_message_witness :
    processIssueSubTasks "bot" ⟨Except.ok [⟨1, "just chatting"⟩, ⟨2, "more chat"⟩],
        Except.ok "sub"⟩ =
      { genCalls := 0, posts := [noPrdMessage "bot"] } :=
  subtask_noPRD_message "bot" _ _ rfl (by decide)

/-- Claim C8: CommandRouter comment contract. parseComment yields a
command c exactly when the first whitespace-delimited token of the
trimmed body is the exact mention string and the second token is c; all
further tokens are ignored, and any body whose first token is not the
mention yields none. -/
theorem parseComment_contract (appName body c : String) :
    parseComment appName body = some c ↔
      ((goFields (goTrim body)).head? = some ("@" ++ appName)
        ∧ (goFields (goTrim body))[1]? = some c) := by
  rcases h : goFields (goTrim body) with _ | ⟨f0, _ | ⟨f1, rest⟩⟩ <;>
    simp [parseComment, h]

/-- Claim C9: a failed comment-listing call during the idempotency check
is discarded — processIssuePRD behaves exactly as it does on an empty
comment list, proceeding to generation and posting, so a listing error
defeats the idempotency check. -/
theorem prdPipeline_listError_ignored (e : String) (cr : Except String ReadmeHandle)
    (g : GenEnv) :
    processIssuePRD ⟨Except.error e, cr, g⟩ = processIssuePRD ⟨Except.ok [], cr, g⟩ := rfl

/-- Claim C10: a failed comment-listing call in the subtask operation is
reported as the no-PRD-found outcome: the fixed run-need_prd-first
message is posted, the upstream error is not surfaced, and no
content-generator call is made. -/
theorem subtask_listError_message (appName e : String) (g : Except String String) :
    processIssueSubTasks appName ⟨Except.error e, g⟩ =
      { genCalls := 0, posts := [noPrdMessage appName] } := rfl

end AgentPRD
